import Mathlib

/-!
Shallow embedding of the OpenHands frontend settings/data-access layer:
the settings type declarations (src/frontend/src/types/settings.ts), the
settings query hook (src/frontend/src/hooks/query/use-settings.ts), and the
two repository pagination functions (src/frontend/src/api/github.ts).

JavaScript `string` becomes `String`, `boolean` becomes `Bool`, numeric
fields become `Nat`, `T | null` becomes `Option T`, and
`Record<string, T>` becomes an association list `List (String × T)`.
JS truthiness tests in the source are modelled explicitly: a string is
falsy exactly when empty, a number is falsy exactly when zero, `null`
and `undefined` are falsy.
-/

namespace OpenHands

/-- Client-shape settings type `Settings` from src/frontend/src/types/settings.ts. -/
structure Settings where
  LLM_MODEL : String
  LLM_BASE_URL : String
  AGENT : String
  LANGUAGE : String
  LLM_API_KEY : Option String
  CONFIRMATION_MODE : Bool
  SECURITY_ANALYZER : String
  REMOTE_RUNTIME_RESOURCE_FACTOR : Option Nat
  GITHUB_TOKEN_IS_SET : Bool
  ENABLE_DEFAULT_CONDENSER : Bool
  ENABLE_SOUND_NOTIFICATIONS : Bool
  USER_CONSENTS_TO_ANALYTICS : Option Bool
  PROVIDER_TOKENS : List (String × String)
deriving DecidableEq

/-- Wire-shape settings type `ApiSettings` from src/frontend/src/types/settings.ts. -/
structure ApiSettings where
  llm_model : String
  llm_base_url : String
  agent : String
  language : String
  llm_api_key : Option String
  confirmation_mode : Bool
  security_analyzer : String
  remote_runtime_resource_factor : Option Nat
  github_token_is_set : Bool
  enable_default_condenser : Bool
  enable_sound_notifications : Bool
  user_consents_to_analytics : Option Bool
  provider_tokens : List (String × String)
deriving DecidableEq

/-- Modelled from the spec: the remote settings read endpoint
(`OpenHands.getSettings`, not under src/) "returns ApiSettings-shaped
JSON plus a `provider_tokens_set` map". The map is a provider-name to
boolean record; it is optional because the hook guards on its presence. -/
structure SettingsResponse extends ApiSettings where
  provider_tokens_set : Option (List (String × Bool))
deriving DecidableEq

/-- The anonymous client-shape record literal returned by `getSettingsQueryFn`
in src/frontend/src/hooks/query/use-settings.ts. Note that its field set
differs from `Settings`: it carries `PROVIDER_TOKENS_SET` and has no
`GITHUB_TOKEN_IS_SET` and no `PROVIDER_TOKENS` field. -/
structure QuerySettings where
  LLM_MODEL : String
  LLM_BASE_URL : String
  AGENT : String
  LANGUAGE : String
  CONFIRMATION_MODE : Bool
  SECURITY_ANALYZER : String
  LLM_API_KEY : Option String
  REMOTE_RUNTIME_RESOURCE_FACTOR : Option Nat
  PROVIDER_TOKENS_SET : Option (List (String × Bool))
  ENABLE_DEFAULT_CONDENSER : Bool
  ENABLE_SOUND_NOTIFICATIONS : Bool
  USER_CONSENTS_TO_ANALYTICS : Option Bool
deriving DecidableEq

/-- `getSettingsQueryFn` from src/frontend/src/hooks/query/use-settings.ts:
the wire-to-client field mapping applied to the fetched settings. -/
def getSettingsQueryFn (apiSettings : SettingsResponse) : QuerySettings :=
  { LLM_MODEL := apiSettings.llm_model
    LLM_BASE_URL := apiSettings.llm_base_url
    AGENT := apiSettings.agent
    LANGUAGE := apiSettings.language
    CONFIRMATION_MODE := apiSettings.confirmation_mode
    SECURITY_ANALYZER := apiSettings.security_analyzer
    LLM_API_KEY := apiSettings.llm_api_key
    REMOTE_RUNTIME_RESOURCE_FACTOR := apiSettings.remote_runtime_resource_factor
    PROVIDER_TOKENS_SET := apiSettings.provider_tokens_set
    ENABLE_DEFAULT_CONDENSER := apiSettings.enable_default_condenser
    ENABLE_SOUND_NOTIFICATIONS := apiSettings.enable_sound_notifications
    USER_CONSENTS_TO_ANALYTICS := apiSettings.user_consents_to_analytics }

/-- Modelled from the spec: `DEFAULT_SETTINGS` lives in `#/services/settings`,
which is not under src/; the spec describes it only as "a fixed Settings
value substituted on 404", so it is modelled as a fixed `Settings` constant
whose particular field values are immaterial to every claim. -/
def DEFAULT_SETTINGS : Settings :=
  { LLM_MODEL := "anthropic/claude-3-5-sonnet-20241022"
    LLM_BASE_URL := ""
    AGENT := "CodeActAgent"
    LANGUAGE := "en"
    LLM_API_KEY := none
    CONFIRMATION_MODE := false
    SECURITY_ANALYZER := ""
    REMOTE_RUNTIME_RESOURCE_FACTOR := some 1
    GITHUB_TOKEN_IS_SET := false
    ENABLE_DEFAULT_CONDENSER := false
    ENABLE_SOUND_NOTIFICATIONS := false
    USER_CONSENTS_TO_ANALYTICS := none
    PROVIDER_TOKENS := [] }

/-- An HTTP failure as seen by the query layer: the status code carried by
the error object that `useSettings` inspects via `error.status`. -/
structure HttpError where
  status : Nat
deriving DecidableEq

/-- The state of the `useQuery` result that `useSettings` reads:
`query.data` (present after a successful fetch) and `query.error`
(present after a failed fetch). -/
structure QueryResult where
  data : Option QuerySettings
  error : Option HttpError
deriving DecidableEq

/-- The retry predicate passed to `useQuery` in
src/frontend/src/hooks/query/use-settings.ts:
`retry: (_, error) => error.status !== 404`. The first argument
(the failure count) is ignored by the source lambda. -/
def settingsRetry (_failureCount : Nat) (error : HttpError) : Bool :=
  error.status != 404

/-- The value returned by the `useSettings` hook. Because the source replaces
`data` by the `Settings`-typed `DEFAULT_SETTINGS` constant on a 404 while a
successful fetch produces the `QuerySettings` shape, the data slot is a sum
of these two shapes. -/
structure UseSettingsResult where
  data : Option (QuerySettings ⊕ Settings)
  error : Option HttpError
deriving DecidableEq

/-- The return value of `useSettings` in
src/frontend/src/hooks/query/use-settings.ts:
`if (query.error?.status === 404) return { ...query, data: DEFAULT_SETTINGS };
return query;`. The object spread keeps every other field of `query`,
in particular the error. -/
def useSettingsResult (query : QueryResult) : UseSettingsResult :=
  if (match query.error with
      | some e => e.status == 404
      | none => false) then
    { data := some (Sum.inr DEFAULT_SETTINGS), error := query.error }
  else
    { data := Option.map Sum.inl query.data, error := query.error }

/-- Modelled from the spec: the auth/session context collaborator
(`useAuth`, not under src/) "exposes setters for provider-tokens-set map
and a providers-configured boolean"; its state is the pair of values those
setters last wrote. -/
structure AuthState where
  providerTokensSet : List (String × Bool)
  providersAreSet : Bool
deriving DecidableEq

/-- The provider-tokens effect of `useSettings`:
`if (query.data?.PROVIDER_TOKENS_SET) { setProviderTokensSet(m);
setProvidersAreSet(Object.values(m).some(v => v)); }` — when the map is
present the two session-state slots are overwritten, otherwise the state
is left unchanged. -/
def providerTokensEffect (data : Option QuerySettings) (state : AuthState) :
    AuthState :=
  match data with
  | none => state
  | some d =>
    match d.PROVIDER_TOKENS_SET with
    | none => state
    | some m =>
      { providerTokensSet := m
        providersAreSet := m.any (fun p => p.2) }

/-- The analytics effect of `useSettings`:
`if (query.data?.LLM_API_KEY) posthog.capture("user_activated")` — the
condition is a JS truthiness test, so the signal fires exactly when the
fetched key is a non-empty string. The returned boolean says whether the
capture call runs. -/
def userActivatedEmitted (data : Option QuerySettings) : Bool :=
  match data with
  | none => false
  | some d =>
    match d.LLM_API_KEY with
    | none => false
    | some key => key != ""

/-- Modelled from the spec: the global `GitHubRepository` type is not under
src/; the spec describes repository records as "opaque beyond carrying an
optional legacy `link_header` string". -/
structure GitHubRepository where
  link_header : Option String
deriving DecidableEq

/-- The query parameters of the single request issued by
`retrieveGitHubAppRepositories`:
`{ sort: "pushed", page, per_page, installation_id: installationId }`,
where `installationId = installations[installationIndex]` is `undefined`
(here `none`) when the index is out of bounds. -/
structure AppRepoParams where
  sort : String
  page : Nat
  per_page : Nat
  installation_id : Option Nat
deriving DecidableEq

/-- The value returned by `retrieveGitHubAppRepositories`, together with the
request parameters it sent. -/
structure AppRepoResult where
  params : AppRepoParams
  data : List GitHubRepository
  nextPage : Option Nat
  installationIndex : Option Nat
deriving DecidableEq

/-- The link selection in `retrieveGitHubAppRepositories`
(src/frontend/src/api/github.ts):
`response.data.length > 0 && response.data[0].link_header ?
response.data[0].link_header : ""`. The `&&` chain is a JS truthiness
test, so an absent first record, an absent field, and an empty-string
field all yield `""`. -/
def headerLink (data : List GitHubRepository) : String :=
  match data with
  | [] => ""
  | r :: _ =>
    match r.link_header with
    | none => ""
    | some s => if s == "" then "" else s

/-- JS truthiness of a `number | null` value: `null` and `0` are falsy,
every other number is truthy. Used to model `if (nextPage)`. -/
def truthyPage : Option Nat → Bool
  | none => false
  | some n => n != 0

/-- `retrieveGitHubAppRepositories` from src/frontend/src/api/github.ts.
The external collaborator `extractNextPageFromLink`
(`#/utils/extract-next-page-from-link`, not under src/) is modelled from
the spec as an arbitrary function from a link-header-style string to "a
page number or null", passed in as a parameter; the HTTP response body is
likewise passed in as `respData`. The source never checks
`installationIndex` against the bounds of `installations` and cannot
throw: this embedding is a total function. -/
def retrieveGitHubAppRepositories
    (extractNextPageFromLink : String → Option Nat)
    (installationIndex : Nat) (installations : List Nat)
    (page : Nat) (per_page : Nat)
    (respData : List GitHubRepository) : AppRepoResult :=
  let installationId := installations[installationIndex]?
  let link := headerLink respData
  let nextPage := extractNextPageFromLink link
  let nextInstallation : Option Nat :=
    if truthyPage nextPage then
      some installationIndex
    else if installationIndex + 1 < installations.length then
      some (installationIndex + 1)
    else
      none
  { params :=
      { sort := "pushed"
        page := page
        per_page := per_page
        installation_id := installationId }
    data := respData
    nextPage := nextPage
    installationIndex := nextInstallation }

/-- The `pagination` block of the direct-user response shape in
src/frontend/src/api/github.ts. -/
structure UserRepoPagination where
  total_count : Nat
  has_more : Bool
  provider_cursors : List (String × String)
deriving DecidableEq

/-- The direct-user response shape:
`{ repositories: GitHubRepository[], pagination: {...} }`. -/
structure UserRepoResponse where
  repositories : List GitHubRepository
  pagination : UserRepoPagination
deriving DecidableEq

/-- The query parameters of the single request issued by
`retrieveGitHubUserRepositories`: `{ sort: "pushed", page, per_page }`. -/
structure UserRepoParams where
  sort : String
  page : Nat
  per_page : Nat
deriving DecidableEq

/-- The value returned by `retrieveGitHubUserRepositories`, together with
the request parameters it sent. -/
structure UserRepoResult where
  params : UserRepoParams
  data : List GitHubRepository
  nextPage : Option Nat
  totalCount : Nat
  providerCursors : List (String × String)
deriving DecidableEq

/-- Lookup of a key in a `Record<string, string>` modelled as an
association list: `provider_cursors?.github`. -/
def lookupCursor (cursors : List (String × String)) (key : String) :
    Option String :=
  (cursors.find? (fun p => p.1 == key)).map (fun p => p.2)

/-- `retrieveGitHubUserRepositories` from src/frontend/src/api/github.ts.
The next-page ternary
`githubCursor ? extractNextPageFromLink(githubCursor) : hasMore ? page + 1 : null`
tests the cursor string for JS truthiness, so an absent key and an
empty-string cursor both fall through to the `has_more` rule. As above,
`extractNextPageFromLink` is an external collaborator passed as a
parameter and the response body is passed in as `resp`. -/
def retrieveGitHubUserRepositories
    (extractNextPageFromLink : String → Option Nat)
    (page : Nat) (per_page : Nat)
    (resp : UserRepoResponse) : UserRepoResult :=
  let hasMore := resp.pagination.has_more
  let githubCursor := lookupCursor resp.pagination.provider_cursors "github"
  let nextPage : Option Nat :=
    match githubCursor with
    | some s =>
      if s == "" then (if hasMore then some (page + 1) else none)
      else extractNextPageFromLink s
    | none => if hasMore then some (page + 1) else none
  { params :=
      { sort := "pushed"
        page := page
        per_page := per_page }
    data := resp.repositories
    nextPage := nextPage
    totalCount := resp.pagination.total_count
    providerCursors := resp.pagination.provider_cursors }

/-- Defined from the spec's isomorphism wording (section 3): the evident
wire-to-client field rename between the two declared shapes, covering all
thirteen fields. This is the spec-side correspondence against which the
adapter's actual mapping is compared. -/
def apiToClient (a : ApiSettings) : Settings :=
  { LLM_MODEL := a.llm_model
    LLM_BASE_URL := a.llm_base_url
    AGENT := a.agent
    LANGUAGE := a.language
    LLM_API_KEY := a.llm_api_key
    CONFIRMATION_MODE := a.confirmation_mode
    SECURITY_ANALYZER := a.security_analyzer
    REMOTE_RUNTIME_RESOURCE_FACTOR := a.remote_runtime_resource_factor
    GITHUB_TOKEN_IS_SET := a.github_token_is_set
    ENABLE_DEFAULT_CONDENSER := a.enable_default_condenser
    ENABLE_SOUND_NOTIFICATIONS := a.enable_sound_notifications
    USER_CONSENTS_TO_ANALYTICS := a.user_consents_to_analytics
    PROVIDER_TOKENS := a.provider_tokens }

/-- Defined from the spec's isomorphism wording (section 3): the evident
client-to-wire field rename, inverse direction of `apiToClient`. -/
def clientToApi (s : Settings) : ApiSettings :=
  { llm_model := s.LLM_MODEL
    llm_base_url := s.LLM_BASE_URL
    agent := s.AGENT
    language := s.LANGUAGE
    llm_api_key := s.LLM_API_KEY
    confirmation_mode := s.CONFIRMATION_MODE
    security_analyzer := s.SECURITY_ANALYZER
    remote_runtime_resource_factor := s.REMOTE_RUNTIME_RESOURCE_FACTOR
    github_token_is_set := s.GITHUB_TOKEN_IS_SET
    enable_default_condenser := s.ENABLE_DEFAULT_CONDENSER
    enable_sound_notifications := s.ENABLE_SOUND_NOTIFICATIONS
    user_consents_to_analytics := s.USER_CONSENTS_TO_ANALYTICS
    provider_tokens := s.PROVIDER_TOKENS }

/-- A concrete wire-shape value used to instantiate counterexamples and
witnesses. -/
def sampleApi : ApiSettings :=
  { llm_model := "gpt-4"
    llm_base_url := ""
    agent := "CodeActAgent"
    language := "en"
    llm_api_key := none
    confirmation_mode := false
    security_analyzer := ""
    remote_runtime_resource_factor := none
    github_token_is_set := false
    enable_default_condenser := false
    enable_sound_notifications := false
    user_consents_to_analytics := none
    provider_tokens := [] }

/-- A concrete fetched-settings value used to instantiate witnesses. -/
def sampleQuerySettings : QuerySettings :=
  { LLM_MODEL := "gpt-4"
    LLM_BASE_URL := ""
    AGENT := "CodeActAgent"
    LANGUAGE := "en"
    CONFIRMATION_MODE := false
    SECURITY_ANALYZER := ""
    LLM_API_KEY := some "sk-test"
    REMOTE_RUNTIME_RESOURCE_FACTOR := none
    PROVIDER_TOKENS_SET := some [("github", false), ("gitlab", true)]
    ENABLE_DEFAULT_CONDENSER := true
    ENABLE_SOUND_NOTIFICATIONS := false
    USER_CONSENTS_TO_ANALYTICS := some true }

/-- A concrete auth/session state used to instantiate witnesses. -/
def sampleAuthState : AuthState :=
  { providerTokensSet := []
    providersAreSet := false }

/-- Claim C1, counterexample: the adapter's output is not a one-to-one rename
of all `ApiSettings` fields. Two wire payloads that differ only in
`github_token_is_set` (and, in the second pair, only in `provider_tokens`)
produce identical adapter outputs, so neither field appears in the result
under any name. -/
theorem C1_counterexample :
    (getSettingsQueryFn ⟨sampleApi, some []⟩ =
      getSettingsQueryFn ⟨{ sampleApi with github_token_is_set := true }, some []⟩) ∧
    (getSettingsQueryFn ⟨sampleApi, some []⟩ =
      getSettingsQueryFn
        ⟨{ sampleApi with provider_tokens := [("github", "tok")] }, some []⟩) ∧
    ({ sampleApi with github_token_is_set := true } : ApiSettings).github_token_is_set ≠
      sampleApi.github_token_is_set ∧
    ({ sampleApi with provider_tokens := [("github", "tok")] } : ApiSettings).provider_tokens ≠
      sampleApi.provider_tokens := by
  refine ⟨rfl, rfl, by decide, by decide⟩

/-- Claim C1, amended: for every wire payload, the adapter carries eleven of
the thirteen `ApiSettings` fields, plus the extra `provider_tokens_set`
map, to their client-shape names with unchanged values; the
`github_token_is_set` and `provider_tokens` fields are not carried over at
all. -/
theorem C1_field_rename (r : SettingsResponse) :
    (getSettingsQueryFn r).LLM_MODEL = r.llm_model ∧
    (getSettingsQueryFn r).LLM_BASE_URL = r.llm_base_url ∧
    (getSettingsQueryFn r).AGENT = r.agent ∧
    (getSettingsQueryFn r).LANGUAGE = r.language ∧
    (getSettingsQueryFn r).LLM_API_KEY = r.llm_api_key ∧
    (getSettingsQueryFn r).CONFIRMATION_MODE = r.confirmation_mode ∧
    (getSettingsQueryFn r).SECURITY_ANALYZER = r.security_analyzer ∧
    (getSettingsQueryFn r).REMOTE_RUNTIME_RESOURCE_FACTOR =
      r.remote_runtime_resource_factor ∧
    (getSettingsQueryFn r).ENABLE_DEFAULT_CONDENSER = r.enable_default_condenser ∧
    (getSettingsQueryFn r).ENABLE_SOUND_NOTIFICATIONS =
      r.enable_sound_notifications ∧
    (getSettingsQueryFn r).USER_CONSENTS_TO_ANALYTICS =
      r.user_consents_to_analytics ∧
    (getSettingsQueryFn r).PROVIDER_TOKENS_SET = r.provider_tokens_set :=
  ⟨rfl, rfl, rfl, rfl, rfl, rfl, rfl, rfl, rfl, rfl, rfl, rfl⟩

/-- Claim C7, counterexample: the adapter's mapping does not cover every
field of the two shapes. Two wire payloads that differ only in the
`provider_tokens` field — a field declared in both `ApiSettings` and
(as `PROVIDER_TOKENS`) in `Settings` — produce identical adapter outputs,
so that field has no counterpart in the adapter's mapping. -/
theorem C7_counterexample :
    (getSettingsQueryFn ⟨sampleApi, none⟩ =
      getSettingsQueryFn
        ⟨{ sampleApi with provider_tokens := [("gitlab", "tok")] }, none⟩) ∧
    ({ sampleApi with provider_tokens := [("gitlab", "tok")] } : ApiSettings).provider_tokens ≠
      sampleApi.provider_tokens := by
  refine ⟨rfl, by decide⟩

/-- Claim C7, amended: the declared `Settings` and `ApiSettings` shapes are
field-isomorphic — the evident renames in the two directions are mutually
inverse bijections, so the shapes have the same thirteen fields with the
same value types, differing only in naming. (The adapter's mapping,
however, covers only eleven of those fields; see the counterexample.) -/
theorem C7_shapes_isomorphic :
    (∀ a : ApiSettings, clientToApi (apiToClient a) = a) ∧
    (∀ s : Settings, apiToClient (clientToApi s) = s) :=
  ⟨fun _ => rfl, fun _ => rfl⟩

/-- Claim C2, counterexample: on a 404 the hook returns
`{ ...query, data: DEFAULT_SETTINGS }`; the object spread preserves the
error field, so the caller does receive an error state alongside the
default data. -/
theorem C2_counterexample :
    (useSettingsResult ⟨none, some ⟨404⟩⟩).error = some ⟨404⟩ ∧
    (useSettingsResult ⟨none, some ⟨404⟩⟩).data =
      some (Sum.inr DEFAULT_SETTINGS) := by
  refine ⟨rfl, rfl⟩

/-- Claim C2, amended: when the settings fetch fails with status 404, the
retry predicate suppresses retries and the hook's returned data is the
fixed `DEFAULT_SETTINGS` object, but the error field of the returned
object is preserved by the spread rather than cleared; for any other
failure status the retry predicate does not suppress retries. -/
theorem C2_default_on_404 (query : QueryResult) (e : HttpError)
    (failureCount : Nat) (h : query.error = some e) :
    (e.status = 404 →
      settingsRetry failureCount e = false ∧
      (useSettingsResult query).data = some (Sum.inr DEFAULT_SETTINGS) ∧
      (useSettingsResult query).error = some e) ∧
    (e.status ≠ 404 → settingsRetry failureCount e = true) := by
  constructor
  · intro h404
    refine ⟨?_, ?_, ?_⟩
    · simp [settingsRetry, h404]
    · simp [useSettingsResult, h, h404]
    · simp [useSettingsResult, h, h404]
  · intro h404
    simp [settingsRetry]
    exact h404

/-- Claim C2, witness: at a concrete 404 failure the retry predicate
returns false and the returned data is the default object, and at a
concrete 500 failure the retry predicate returns true. -/
theorem C2_witness :
    settingsRetry 0 ⟨404⟩ = false ∧
    (useSettingsResult ⟨none, some ⟨404⟩⟩).data =
      some (Sum.inr DEFAULT_SETTINGS) ∧
    settingsRetry 0 ⟨500⟩ = true := by
  refine ⟨?_, ?_, ?_⟩
  · exact ((C2_default_on_404 ⟨none, some ⟨404⟩⟩ ⟨404⟩ 0 rfl).1 rfl).1
  · exact ((C2_default_on_404 ⟨none, some ⟨404⟩⟩ ⟨404⟩ 0 rfl).1 rfl).2.1
  · exact (C2_default_on_404 ⟨none, some ⟨500⟩⟩ ⟨500⟩ 0 rfl).2 (by decide)

/-- Claim C5: when the settings fetch fails with any status other than 404,
the hook returns the query unchanged — the error is surfaced as-is, the
data slot is the fetched data (if any) and is never the substituted
default `Settings` object. -/
theorem C5_non404_surfaces_error (query : QueryResult) (e : HttpError)
    (h : query.error = some e) (hne : e.status ≠ 404) :
    (useSettingsResult query).error = some e ∧
    (useSettingsResult query).data = Option.map Sum.inl query.data ∧
    ∀ s : Settings, (useSettingsResult query).data ≠ some (Sum.inr s) := by
  have hd : (useSettingsResult query).data = Option.map Sum.inl query.data := by
    simp [useSettingsResult, h, hne]
  have he : (useSettingsResult query).error = some e := by
    simp [useSettingsResult, h, hne]
  refine ⟨he, hd, ?_⟩
  intro s
  rw [hd]
  cases query.data <;> simp

/-- Claim C5, witness: at a concrete 500 failure the returned error is the
500 error and the returned data is empty (not the default object). -/
theorem C5_witness :
    (useSettingsResult ⟨none, some ⟨500⟩⟩).error = some ⟨500⟩ ∧
    (useSettingsResult ⟨none, some ⟨500⟩⟩).data = none := by
  have h := C5_non404_surfaces_error ⟨none, some ⟨500⟩⟩ ⟨500⟩ rfl (by decide)
  exact ⟨h.1, by simpa using h.2.1⟩

/-- Claim C6: whenever the provider-token-set map is present in the fetched
settings, the effect writes that exact map into session state and writes
the derived boolean, which is true exactly when at least one provider's
token is set (logical OR over the map's values). -/
theorem C6_provider_tokens_effect (d : QuerySettings)
    (m : List (String × Bool)) (state : AuthState)
    (h : d.PROVIDER_TOKENS_SET = some m) :
    (providerTokensEffect (some d) state).providerTokensSet = m ∧
    ((providerTokensEffect (some d) state).providersAreSet = true ↔
      ∃ p ∈ m, p.2 = true) := by
  constructor
  · simp [providerTokensEffect, h]
  · simp [providerTokensEffect, h, List.any_eq_true]

/-- Claim C6, witness: with a concrete map where only gitlab is set, the
effect stores the map and sets the derived boolean to true. -/
theorem C6_witness :
    (providerTokensEffect (some sampleQuerySettings) sampleAuthState).providerTokensSet =
      [("github", false), ("gitlab", true)] ∧
    (providerTokensEffect (some sampleQuerySettings) sampleAuthState).providersAreSet =
      true := by
  have h := C6_provider_tokens_effect sampleQuerySettings
    [("github", false), ("gitlab", true)] sampleAuthState rfl
  exact ⟨h.1, h.2.mpr ⟨("gitlab", true), by decide, rfl⟩⟩

/-- Claim C8: the "user_activated" analytics signal is emitted exactly when
the fetched data carries a non-empty API key — it is not emitted when the
key is null or the empty string. -/
theorem C8_user_activated (d : QuerySettings) :
    userActivatedEmitted (some d) = true ↔
      ∃ k, d.LLM_API_KEY = some k ∧ k ≠ "" := by
  cases hk : d.LLM_API_KEY with
  | none => simp [userActivatedEmitted, hk]
  | some k => simp [userActivatedEmitted, hk]

/-- Claim C3, counterexample: `if (nextPage)` in the source is a JS
truthiness test, so when the collaborator extracts page number 0 from the
link token, a page number is extracted (and is even returned as
`nextPage`), yet the function advances to the next installation instead of
staying at the current index as the claim requires. -/
theorem C3_counterexample :
    (retrieveGitHubAppRepositories (fun _ => some 0) 0 [10, 20] 1 30
        [⟨some "linkzero"⟩]).nextPage = some 0 ∧
    (retrieveGitHubAppRepositories (fun _ => some 0) 0 [10, 20] 1 30
        [⟨some "linkzero"⟩]).installationIndex = some 1 := by
  refine ⟨by decide, by decide⟩

/-- Claim C3, amended: the link token is the first record's `link_header`,
defaulting to the empty string when the list is empty, the field is absent,
or the field is itself the empty string; `nextPage` is the collaborator's
raw result on that token; if a nonzero page number was extracted, the
returned installation index stays at `i`; if extraction yields null or 0
(both falsy in JS), the index advances to `i + 1` when that is within
bounds of the installations list and is null otherwise. -/
theorem C3_advance_policy
    (extractNextPageFromLink : String → Option Nat)
    (i : Nat) (installations : List Nat) (page per_page : Nat)
    (respData : List GitHubRepository) :
    (respData = [] → headerLink respData = "") ∧
    (∀ r rest, respData = r :: rest → r.link_header = none →
      headerLink respData = "") ∧
    (∀ r rest s, respData = r :: rest → r.link_header = some s → s ≠ "" →
      headerLink respData = s) ∧
    (retrieveGitHubAppRepositories extractNextPageFromLink i installations
        page per_page respData).nextPage =
      extractNextPageFromLink (headerLink respData) ∧
    (∀ n, extractNextPageFromLink (headerLink respData) = some n → n ≠ 0 →
      (retrieveGitHubAppRepositories extractNextPageFromLink i installations
          page per_page respData).installationIndex = some i) ∧
    ((extractNextPageFromLink (headerLink respData) = none ∨
      extractNextPageFromLink (headerLink respData) = some 0) →
      (i + 1 < installations.length →
        (retrieveGitHubAppRepositories extractNextPageFromLink i installations
            page per_page respData).installationIndex = some (i + 1)) ∧
      (¬ i + 1 < installations.length →
        (retrieveGitHubAppRepositories extractNextPageFromLink i installations
            page per_page respData).installationIndex = none)) := by
  refine ⟨?_, ?_, ?_, rfl, ?_, ?_⟩
  · intro hr
    subst hr
    rfl
  · intro r rest hr hl
    subst hr
    simp [headerLink, hl]
  · intro r rest s hr hl hs
    subst hr
    simp [headerLink, hl, hs]
  · intro n hn hn0
    simp [retrieveGitHubAppRepositories, truthyPage, hn, hn0]
  · intro h0
    constructor
    · intro hlt
      rcases h0 with hx | hx <;>
        simp [retrieveGitHubAppRepositories, truthyPage, hx, hlt]
    · intro hlt
      rcases h0 with hx | hx <;>
        simp [retrieveGitHubAppRepositories, truthyPage, hx, hlt]

/-- Claim C3, witness: with a concrete collaborator that extracts page 2
from the link token of the first record, the function stays on installation
index 0 and reports next page 2; and with a collaborator extracting
nothing, it advances to installation index 1. -/
theorem C3_witness :
    (retrieveGitHubAppRepositories
        (fun s => if s == "linktwo" then some 2 else none) 0 [10, 20] 1 30
        [⟨some "linktwo"⟩]).installationIndex = some 0 ∧
    (retrieveGitHubAppRepositories
        (fun s => if s == "linktwo" then some 2 else none) 0 [10, 20] 1 30
        [⟨some "linktwo"⟩]).nextPage = some 2 ∧
    (retrieveGitHubAppRepositories (fun _ => none) 0 [10, 20] 1 30
        []).installationIndex = some 1 := by
  have h := C3_advance_policy
    (fun s => if s == "linktwo" then some 2 else none) 0 [10, 20] 1 30
    [⟨some "linktwo"⟩]
  have h2 := C3_advance_policy (fun _ => none) 0 [10, 20] 1 30 []
  refine ⟨?_, ?_, ?_⟩
  · exact h.2.2.2.2.1 2 (by decide) (by decide)
  · rw [h.2.2.2.1]
    decide
  · exact (h2.2.2.2.2.2 (Or.inl rfl)).1 (by decide)

/-- Claim C10: the source never checks `installationIndex` against the
bounds of `installations`. For every out-of-bounds index the embedded
function (which is total, mirroring that the source cannot throw here)
still issues its single request with `sort = "pushed"`, the given paging
parameters, and an undefined (`none`) `installation_id`, returns the
response data, and computes the next installation by the same advance
policy as for in-bounds indices — which, out of bounds, yields null
whenever no (nonzero) next page was extracted. -/
theorem C10_no_bounds_check
    (extractNextPageFromLink : String → Option Nat)
    (i : Nat) (installations : List Nat) (page per_page : Nat)
    (respData : List GitHubRepository)
    (hout : installations.length ≤ i) :
    (retrieveGitHubAppRepositories extractNextPageFromLink i installations
        page per_page respData).params =
      ⟨"pushed", page, per_page, none⟩ ∧
    (retrieveGitHubAppRepositories extractNextPageFromLink i installations
        page per_page respData).data = respData ∧
    (∀ n, extractNextPageFromLink (headerLink respData) = some n → n ≠ 0 →
      (retrieveGitHubAppRepositories extractNextPageFromLink i installations
          page per_page respData).installationIndex = some i) ∧
    ((extractNextPageFromLink (headerLink respData) = none ∨
      extractNextPageFromLink (headerLink respData) = some 0) →
      (retrieveGitHubAppRepositories extractNextPageFromLink i installations
          page per_page respData).installationIndex = none) := by
  have hnone : installations[i]? = none := by
    rw [List.getElem?_eq_none_iff]
    exact hout
  have hnlt : ¬ i + 1 < installations.length := by omega
  refine ⟨?_, rfl, ?_, ?_⟩
  · simp [retrieveGitHubAppRepositories, hnone]
  · intro n hn hn0
    simp [retrieveGitHubAppRepositories, truthyPage, hn, hn0]
  · intro h0
    rcases h0 with hx | hx <;>
      simp [retrieveGitHubAppRepositories, truthyPage, hx, hnlt]

/-- Claim C10, witness: at the concrete out-of-bounds index 5 over a
one-element installations list, the request carries no installation id and
the next installation marker is null. -/
theorem C10_witness :
    (retrieveGitHubAppRepositories (fun _ => none) 5 [10] 1 30
        []).params.installation_id = none ∧
    (retrieveGitHubAppRepositories (fun _ => none) 5 [10] 1 30
        []).installationIndex = none := by
  have h := C10_no_bounds_check (fun _ => none) 5 [10] 1 30 [] (by decide)
  refine ⟨?_, h.2.2.2 (Or.inl rfl)⟩
  rw [h.1]

/-- Claim C4, counterexample: a github cursor that is present but is the
empty string is falsy in JS, so the ternary falls through to the
`has_more` rule instead of passing the cursor through the collaborator:
with `extractNextPageFromLink` constantly null, the claim requires
`nextPage = null` here, but the function returns `page + 1 = 3`. -/
theorem C4_counterexample :
    lookupCursor [("github", "")] "github" = some "" ∧
    (retrieveGitHubUserRepositories (fun _ => none) 2 30
        ⟨[], ⟨50, true, [("github", "")]⟩⟩).nextPage = some 3 ∧
    (fun (_ : String) => (none : Option Nat)) "" = none := by
  refine ⟨by decide, by decide, rfl⟩

/-- Claim C4, amended: if `provider_cursors` contains a non-empty github
cursor, `nextPage` is the collaborator's result on that cursor regardless
of `has_more`; if the github cursor is absent or the empty string,
`nextPage` is `page + 1` when `has_more` is true and null otherwise; the
function also returns the repositories list, the server-reported
`total_count`, and the full `provider_cursors` mapping. -/
theorem C4_next_page_policy
    (extractNextPageFromLink : String → Option Nat)
    (page per_page : Nat) (resp : UserRepoResponse) :
    (∀ s, lookupCursor resp.pagination.provider_cursors "github" = some s →
      s ≠ "" →
      (retrieveGitHubUserRepositories extractNextPageFromLink page per_page
          resp).nextPage = extractNextPageFromLink s) ∧
    ((lookupCursor resp.pagination.provider_cursors "github" = none ∨
      lookupCursor resp.pagination.provider_cursors "github" = some "") →
      (resp.pagination.has_more = true →
        (retrieveGitHubUserRepositories extractNextPageFromLink page per_page
            resp).nextPage = some (page + 1)) ∧
      (resp.pagination.has_more = false →
        (retrieveGitHubUserRepositories extractNextPageFromLink page per_page
            resp).nextPage = none)) ∧
    (retrieveGitHubUserRepositories extractNextPageFromLink page per_page
        resp).data = resp.repositories ∧
    (retrieveGitHubUserRepositories extractNextPageFromLink page per_page
        resp).totalCount = resp.pagination.total_count ∧
    (retrieveGitHubUserRepositories extractNextPageFromLink page per_page
        resp).providerCursors = resp.pagination.provider_cursors := by
  refine ⟨?_, ?_, rfl, rfl, rfl⟩
  · intro s hc hs
    simp [retrieveGitHubUserRepositories, hc, hs]
  · intro h0
    constructor <;> intro hm <;> rcases h0 with hx | hx <;>
      simp [retrieveGitHubUserRepositories, hx, hm]

/-- Claim C4, witness: with a concrete non-empty github cursor the
collaborator's page 5 is returned even though `has_more` is false, and
with no cursor and `has_more` true at page 2 the next page is 3; list,
total count and cursor map are passed through. -/
theorem C4_witness :
    (retrieveGitHubUserRepositories
        (fun s => if s == "cursorfive" then some 5 else none) 2 30
        ⟨[], ⟨50, false, [("github", "cursorfive")]⟩⟩).nextPage = some 5 ∧
    (retrieveGitHubUserRepositories (fun _ => none) 2 30
        ⟨[⟨none⟩], ⟨50, true, []⟩⟩).nextPage = some 3 ∧
    (retrieveGitHubUserRepositories (fun _ => none) 2 30
        ⟨[⟨none⟩], ⟨50, true, []⟩⟩).totalCount = 50 := by
  have h := C4_next_page_policy
    (fun s => if s == "cursorfive" then some 5 else none) 2 30
    ⟨[], ⟨50, false, [("github", "cursorfive")]⟩⟩
  have h2 := C4_next_page_policy (fun _ => none) 2 30 ⟨[⟨none⟩], ⟨50, true, []⟩⟩
  refine ⟨?_, ?_, ?_⟩
  · rw [h.1 "cursorfive" (by decide) (by decide)]
    decide
  · exact (h2.2.1 (Or.inl (by decide))).1 rfl
  · exact h2.2.2.2.1

/-- Claim C9: a present non-empty github cursor short-circuits the
`has_more` fallback — when the collaborator returns null on that cursor,
`nextPage` is null even though `has_more` is true. -/
theorem C9_cursor_short_circuit
    (extractNextPageFromLink : String → Option Nat)
    (page per_page : Nat) (resp : UserRepoResponse) (s : String)
    (hc : lookupCursor resp.pagination.provider_cursors "github" = some s)
    (hs : s ≠ "") (_hm : resp.pagination.has_more = true)
    (hx : extractNextPageFromLink s = none) :
    (retrieveGitHubUserRepositories extractNextPageFromLink page per_page
        resp).nextPage = none := by
  simp [retrieveGitHubUserRepositories, hc, hs, hx]

/-- Claim C9, witness: at a concrete response with a non-empty github
cursor the collaborator cannot parse, `nextPage` is null despite
`has_more` being true. -/
theorem C9_witness :
    (retrieveGitHubUserRepositories (fun _ => none) 1 30
        ⟨[], ⟨9, true, [("github", "deadcursor")]⟩⟩).nextPage = none := by
  exact C9_cursor_short_circuit (fun _ => none) 1 30
    ⟨[], ⟨9, true, [("github", "deadcursor")]⟩⟩ "deadcursor"
    (by decide) (by decide) rfl rfl

end OpenHands
